import Mathlib

set_option maxHeartbeats 1000000

/-!
Formal model of `launchpad.py`, the interactive Solana token launchpad wizard.

The script is a linear pipeline: it prompts the user, validates input shapes,
shells out to external CLI tools (`solana`, `spl-token`, `metaplex`), scans
their stdout for marker substrings, writes a metadata file and a listing
report, and cleans up temporary files.

Modelling conventions:
* external command execution is an environment `String → CmdResult` mapping a
  command line to its (stripped) stdout, stderr and exit code;
* interactive `input()` prompts are a `List String` of successive answers; an
  exhausted list models cutting the infinite retry loop off, yielding `none`;
* Python `float` arithmetic on supply percentages is modelled exactly in `ℚ`
  (the values in the claims are exact in both models);
* Python strings are Lean `String`s, with the relevant `str` methods
  (`strip`, `lower`, `split`, `in`, slicing) re-implemented on `List Char`
  so that every definition reduces in the kernel;
* the file system is the list of existing paths, and `os.remove` fails on a
  missing path exactly as in Python.
-/

/-! ## Python string primitives -/

/-- Left-strip whitespace from a character list. -/
def pyStripL : List Char → List Char
  | [] => []
  | c :: cs => if c.isWhitespace then pyStripL cs else c :: cs

/-- Python `str.strip()`: drop leading and trailing whitespace. -/
def pyStrip (s : String) : String :=
  String.mk ((pyStripL (pyStripL s.data).reverse).reverse)

/-- Python `str.lower()` (ASCII model). -/
def pyLower (s : String) : String :=
  String.mk (s.data.map Char.toLower)

/-- Split a character list at newline characters, keeping empty pieces,
mirroring Python `str.split('\n')`. -/
def splitLinesC : List Char → List (List Char)
  | [] => [[]]
  | c :: cs =>
    if c = '\n' then [] :: splitLinesC cs
    else
      match splitLinesC cs with
      | l :: ls => (c :: l) :: ls
      | [] => [[c]]

/-- Python `output.split('\n')`. -/
def pyLines (s : String) : List String :=
  (splitLinesC s.data).map String.mk

/-- Split a character list at whitespace, keeping empty pieces. -/
def splitWsC : List Char → List (List Char)
  | [] => [[]]
  | c :: cs =>
    if c.isWhitespace then [] :: splitWsC cs
    else
      match splitWsC cs with
      | l :: ls => (c :: l) :: ls
      | [] => [[c]]

/-- Python `str.split()` with no argument: whitespace-separated words,
empty pieces dropped. -/
def pySplit (s : String) : List String :=
  ((splitWsC s.data).filter (fun l => l ≠ [])).map String.mk

/-- Whether `sub` occurs in the list starting at some position
(helper for Python's `in` on strings). -/
def containsFrom (sub : List Char) : List Char → Bool
  | [] => sub = []
  | c :: cs => sub.isPrefixOf (c :: cs) || containsFrom sub cs

/-- Python `sub in s` for strings. -/
def pyContains (s sub : String) : Bool :=
  containsFrom sub.data s.data

/-- Python slicing `s[:n]`. -/
def pyTake (s : String) (n : Nat) : String :=
  String.mk (s.data.take n)

/-- Numeric value of a digit string read left to right. -/
def digitsToNat (s : String) : Nat :=
  s.data.foldl (fun a c => a * 10 + (c.toNat - 48)) 0

/-- Python `str.isdigit()` (ASCII model): nonempty and all digits. -/
def pyIsdigit (s : String) : Bool :=
  s.data ≠ [] && s.data.all Char.isDigit

/-- Digits of a Python integer literal after the first digit: either a digit
or an underscore that must be followed by a digit. -/
def pyDigitsRest : List Char → Nat → Option Nat
  | [], acc => some acc
  | '_' :: c :: cs, acc =>
    if c.isDigit then pyDigitsRest cs (acc * 10 + (c.toNat - 48)) else none
  | ['_'], _ => none
  | c :: cs, acc =>
    if c.isDigit then pyDigitsRest cs (acc * 10 + (c.toNat - 48)) else none

/-- An unsigned Python integer literal: a digit followed by digits with
single interior underscores. -/
def pyIntDigits : List Char → Option Nat
  | [] => none
  | c :: cs => if c.isDigit then pyDigitsRest cs (c.toNat - 48) else none

/-- Python `int(s)` (ASCII model): strips whitespace, allows an optional
sign, then a digit string with interior underscores; `none` models
`ValueError`. -/
def pyInt? (s : String) : Option Int :=
  match (pyStrip s).data with
  | '+' :: cs => (pyIntDigits cs).map (fun n => (n : Int))
  | '-' :: cs => (pyIntDigits cs).map (fun n => -(n : Int))
  | cs => (pyIntDigits cs).map (fun n => (n : Int))

/-! ## Command results and the file system -/

/-- Result of `run_command` (launchpad.py lines 11-17): stripped stdout,
stripped stderr and the exit code. -/
structure CmdResult where
  stdout : String
  stderr : String
  code : Int
  deriving DecidableEq

/-- The file system: the list of paths that currently exist. -/
abbrev FS := List String

/-- Python `os.path.exists`. -/
def osPathExists (fs : FS) (p : String) : Bool :=
  p ∈ fs

/-- Python `os.remove`: removes the path, raising (modelled as `none`) when
it does not exist. -/
def osRemove (fs : FS) (p : String) : Option FS :=
  if p ∈ fs then some (fs.filter (fun q => q ≠ p)) else none

/-! ## Numeric input validators -/

/-- `get_priority_fee` (lines 62-73) over the successive user answers: strip
the input, parse it with `int`, accept iff the fee is ≥ 0, otherwise
re-prompt on the remaining answers. -/
def get_priority_fee : List String → Option Int
  | [] => none
  | s :: rest =>
    match pyInt? (pyStrip s) with
    | some fee => if 0 ≤ fee then some fee else get_priority_fee rest
    | none => get_priority_fee rest

/-- The decimals loop of `get_token_details` (lines 519-528): accept iff the
answer `isdigit()` and its value is ≤ 18, otherwise re-prompt. -/
def get_decimals : List String → Option Nat
  | [] => none
  | s :: rest =>
    if pyIsdigit s then
      if digitsToNat s ≤ 18 then some (digitsToNat s) else get_decimals rest
    else get_decimals rest

/-- The total-supply loop of `get_token_details` (lines 530-539): accept iff
the answer `isdigit()` and its value is > 0, otherwise re-prompt. -/
def get_total_supply : List String → Option Nat
  | [] => none
  | s :: rest =>
    if pyIsdigit s then
      if 0 < digitsToNat s then some (digitsToNat s) else get_total_supply rest
    else get_total_supply rest

/-! ## Circulating supply configuration -/

/-- The record returned by `get_circulating_supply_info` (lines 190-197).
Percentages are Python floats, modelled exactly in `ℚ`. -/
structure SupplyInfo where
  circulating_supply : Int
  circulating_percent : ℚ
  locked_supply : Int
  locked_percent : ℚ
  lock_reason : String
  lock_duration : String
  deriving DecidableEq

/-- `get_circulating_supply_info` (lines 150-202) over the successive user
answers.  Each iteration reads the circulating amount; an unparsable,
non-positive or too-large amount re-prompts.  A valid amount additionally
reads the lock reason, lock duration and a confirmation; a confirmation
other than yes/y restarts the loop. -/
def get_circulating_supply_info (total : Int) : List String → Option SupplyInfo
  | [] => none
  | ci :: rest =>
    match pyInt? ci with
    | none => get_circulating_supply_info total rest
    | some c =>
      if c ≤ 0 then get_circulating_supply_info total rest
      else if total < c then get_circulating_supply_info total rest
      else
        match rest with
        | reason :: dur :: confirm :: rest2 =>
          if pyStrip (pyLower confirm) = "yes" ∨ pyStrip (pyLower confirm) = "y" then
            some { circulating_supply := c
                 , circulating_percent := (c : ℚ) / (total : ℚ) * 100
                 , locked_supply := total - c
                 , locked_percent := 100 - (c : ℚ) / (total : ℚ) * 100
                 , lock_reason := reason
                 , lock_duration := dur }
          else get_circulating_supply_info total rest2
        | _ => none

/-- Rounding to one decimal place, as displayed by Python `{:.1f}`
(no tie arises at the values considered here). -/
def round1 (q : ℚ) : ℚ :=
  ((⌊q * 10 + 1 / 2⌋ : ℤ) : ℚ) / 10

example : get_priority_fee ["  100000 "] = some 100000 := by decide
example : get_priority_fee ["-3", "7"] = some 7 := by decide
example : get_decimals ["19", "9"] = some 9 := by decide
example : get_total_supply ["0", "5"] = some 5 := by decide
example : pyInt? "  1_000 " = some 1000 := by decide
example : pyInt? "1__0" = none := by decide
example : pyInt? "-42" = some (-42) := by decide
/-! ## Token details -/

/-- The dictionary returned by `get_token_details` (lines 581-599). -/
structure TokenDetails where
  name : String
  symbol : String
  decimals : Nat
  supply : Nat
  circulating_info : SupplyInfo
  logo : String
  description : String
  creator_address : String
  creator_name : String
  creator_website : String
  website : String
  twitter : String
  telegram : String
  discord : String
  github : String
  tags : List String
  recipient : String
  deriving DecidableEq

/-- The ASCII single-quote character, used by the metaplex command line. -/
def quoteS : String := String.singleton (Char.ofNat 39)

/-! ## External command steps -/

/-- `set_wallet` (lines 439-447): the solana config command it issues.  For
the default wallet, or when the wallet path is missing or does not exist,
no command is run. -/
def set_wallet_cmds (fs : FS) (wallet_type : String) (wallet_path : Option String) : List String :=
  if wallet_type = "default" then []
  else
    match wallet_path with
    | some p => if osPathExists fs p then ["solana config set --keypair " ++ p] else []
    | none => []

/-- The command built by `create_token` (line 668). -/
def create_token_cmd (decimals : Nat) : String :=
  "spl-token create-token --decimals " ++ toString decimals ++ " --enable-metadata"

/-- The stdout scan of `create_token` (lines 675-682): the first line
containing `Creating token` yields its whitespace-separated last word;
otherwise no address is found. -/
def extract_token_address (output : String) : Option String :=
  match (pyLines output).find? (fun line => pyContains line "Creating token") with
  | some line => (pySplit line).getLast?
  | none => none

/-- `create_token` (lines 661-682): runs the create-token command; a
non-zero exit code fails, otherwise the address is extracted from stdout.
(The ignored `set_wallet` side call does not affect the result.) -/
def create_token (env : String → CmdResult) (decimals : Nat) : Option String :=
  let r := env (create_token_cmd decimals)
  if r.code ≠ 0 then none
  else extract_token_address r.stdout

/-- `setup_token_account` (lines 684-698): succeeds iff the create-account
command exits 0. -/
def setup_token_account (env : String → CmdResult) (token_address : String) : Bool :=
  (env ("spl-token create-account " ++ token_address)).code = 0

/-- `mint_tokens` (lines 700-714): succeeds iff the mint command exits 0. -/
def mint_tokens (env : String → CmdResult) (token_address : String) (supply : Nat) : Bool :=
  (env ("spl-token mint " ++ token_address ++ " " ++ toString supply)).code = 0

/-- `disable_future_minting` (lines 716-730): succeeds iff the authorize
command exits 0. -/
def disable_future_minting (env : String → CmdResult) (token_address : String) : Bool :=
  (env ("spl-token authorize " ++ token_address ++ " mint --disable")).code = 0

/-- The metaplex upload command (line 845). -/
def upload_cmd (network : String) : String :=
  "metaplex upload metadata.json --env " ++ network

/-- The metadata URI chosen by `setup_metadata_on_chain` (lines 848-855):
the global `details['logo']`, overridden by the first stripped stdout line
of a successful, non-empty upload that contains both `https://` and
`arweave`. -/
def metadata_uri_of (r : CmdResult) (logo : String) : String :=
  if r.code = 0 ∧ r.stdout ≠ "" then
    match (pyLines r.stdout).find? (fun l => pyContains l "https://" && pyContains l "arweave") with
    | some l => pyStrip l
    | none => logo
  else logo

/-- The metaplex create_metadata_accounts command (line 857). -/
def create_metadata_accounts_cmd (token_address wallet_address uri name symbol network : String) : String :=
  "metaplex create_metadata_accounts " ++ token_address ++ " " ++ wallet_address ++ " " ++
    wallet_address ++ " " ++ wallet_address ++ " " ++ uri ++ " " ++ quoteS ++ name ++ quoteS ++
    " " ++ quoteS ++ symbol ++ quoteS ++ " --env " ++ network

/-- The commands issued by `setup_metadata_on_chain` (lines 838-863).  Note
that `name`, `symbol` and `logo` are read from the module-level `details`
variable, which is not among the function's parameters. -/
def setup_metadata_on_chain_cmds (fs : FS) (env : String → CmdResult)
    (token_address wallet_address network wallet_type : String)
    (wallet_path : Option String) (details : TokenDetails) : List String :=
  let setw := if wallet_type ≠ "default" then set_wallet_cmds fs wallet_type wallet_path else []
  let uri := metadata_uri_of (env (upload_cmd network)) details.logo
  setw ++ [upload_cmd network,
    create_metadata_accounts_cmd token_address wallet_address uri
      details.name details.symbol network]

/-- Whether the final create_metadata_accounts command of
`setup_metadata_on_chain` exits 0 (lines 857-863).  The function reports
the outcome but returns nothing; `main` never checks it. -/
def setup_metadata_on_chain_ok (env : String → CmdResult)
    (token_address wallet_address network : String) (details : TokenDetails) : Bool :=
  (env (create_metadata_accounts_cmd token_address wallet_address
    (metadata_uri_of (env (upload_cmd network)) details.logo)
    details.name details.symbol network)).code = 0

/-- The report file name of `generate_listing_report` (line 329):
`token_listing_report_` followed by the first 8 characters of the token
address. -/
def report_file_name (token_address : String) : String :=
  "token_listing_report_" ++ pyTake token_address 8 ++ ".txt"

/-! ## Cleanup -/

/-- The temporary wallet path written by `get_wallet_keypair` and removed
by `cleanup`. -/
def tempWalletPath : String := "/tmp/temp_wallet_keypair.json"

/-- `cleanup` (lines 883-892): remove `metadata.json` and the temporary
wallet keypair, each guarded by an existence check; `none` models an
uncaught exception from `os.remove`. -/
def cleanup (fs : FS) : Option FS :=
  match (if osPathExists fs "metadata.json" then osRemove fs "metadata.json" else some fs) with
  | none => none
  | some fs1 =>
    match (if osPathExists fs1 tempWalletPath then osRemove fs1 tempWalletPath else some fs1) with
    | none => none
    | some fs2 => some fs2

/-! ## The main sequencer -/

/-- The observable steps of `main` from token creation onward
(lines 999-1034). -/
inductive Step where
  | createToken
  | setupTokenAccount
  | mintTokens
  | disableFutureMinting
  | createMetadataFile
  | setupMetadataOnChain
  | sendTokens
  | autoList
  | cleanupStep
  | finalSummary
  deriving DecidableEq

/-- The token-creation portion of `main` (lines 999-1034), returning the
steps that execute and the files that are written, in order.  `main`
returns as soon as `create_token`, `setup_token_account` or `mint_tokens`
fails; the results of `disable_future_minting`, `setup_metadata_on_chain`
and `send_tokens_to_recipient` are not checked; auto-listing (which writes
the report file) runs unless the listing preference is `'3'`. -/
def runPipeline (env : String → CmdResult) (d : TokenDetails) (pref : String) :
    List Step × List String :=
  match create_token env d.decimals with
  | none => ([Step.createToken], [])
  | some addr =>
    if addr = "" then ([Step.createToken], [])
    else if setup_token_account env addr = false then
      ([Step.createToken, Step.setupTokenAccount], [])
    else if mint_tokens env addr d.supply = false then
      ([Step.createToken, Step.setupTokenAccount, Step.mintTokens], [])
    else if pref ≠ "3" then
      ([Step.createToken, Step.setupTokenAccount, Step.mintTokens,
        Step.disableFutureMinting, Step.createMetadataFile, Step.setupMetadataOnChain,
        Step.sendTokens, Step.autoList, Step.cleanupStep, Step.finalSummary],
       ["metadata.json", report_file_name addr])
    else
      ([Step.createToken, Step.setupTokenAccount, Step.mintTokens,
        Step.disableFutureMinting, Step.createMetadataFile, Step.setupMetadataOnChain,
        Step.sendTokens, Step.cleanupStep, Step.finalSummary],
       ["metadata.json"])

/-! ## Sample inputs used by the claim witnesses -/

/-- A concrete supply record: 800,000 of 1,000,000 circulating. -/
def infoSample : SupplyInfo :=
  { circulating_supply := 800000
  , circulating_percent := 80
  , locked_supply := 200000
  , locked_percent := 20
  , lock_reason := "team"
  , lock_duration := "6 months" }

/-- Concrete token details for witnesses. -/
def detailsSample : TokenDetails :=
  { name := "Doge"
  , symbol := "DOGE"
  , decimals := 9
  , supply := 1000000
  , circulating_info := infoSample
  , logo := "https://example.com/logo.png"
  , description := "a coin"
  , creator_address := "CreatorAddr"
  , creator_name := ""
  , creator_website := ""
  , website := "https://example.com"
  , twitter := ""
  , telegram := ""
  , discord := ""
  , github := ""
  , tags := []
  , recipient := "RecipientAddr" }

/-- Environment where every external command fails. -/
def envCreateFail : String → CmdResult := fun _ => { stdout := "", stderr := "error", code := 1 }

/-- Environment where every command exits 0 but prints no marker line. -/
def envOkNoMarker : String → CmdResult := fun _ => { stdout := "Done.", stderr := "", code := 0 }

/-- Environment where every command succeeds and prints the token-creation
marker line. -/
def envAllOk : String → CmdResult :=
  fun _ => { stdout := "Creating token TOKENADDRESS123", stderr := "", code := 0 }

/-- Environment where only the mint-authority disable command fails. -/
def envDisableFail : String → CmdResult :=
  fun c =>
    if c = "spl-token authorize TOKENADDRESS123 mint --disable" then
      { stdout := "", stderr := "boom", code := 1 }
    else
      { stdout := "Creating token TOKENADDRESS123", stderr := "", code := 0 }

/-! ## Soundness of the circulating-supply loop -/

/-- Any record returned by `get_circulating_supply_info` satisfies the
bounds and the arithmetic relations that the code establishes on the
accepted iteration. -/
theorem supply_sound (total : Int) : ∀ inputs r,
    get_circulating_supply_info total inputs = some r →
      0 < r.circulating_supply ∧ r.circulating_supply ≤ total ∧
      r.locked_supply = total - r.circulating_supply ∧
      r.circulating_percent = (r.circulating_supply : ℚ) / (total : ℚ) * 100 ∧
      r.locked_percent = 100 - r.circulating_percent := by
  intro inputs
  induction inputs using get_circulating_supply_info.induct total with
  | case1 =>
    intro r hr
    simp [get_circulating_supply_info] at hr
  | case2 ci rest h ih =>
    intro r hr
    simp only [get_circulating_supply_info, h] at hr
    exact ih r hr
  | case3 ci rest c h hc ih =>
    intro r hr
    simp only [get_circulating_supply_info, h, if_pos hc] at hr
    exact ih r hr
  | case4 ci rest c h hc hlt ih =>
    intro r hr
    simp only [get_circulating_supply_info, h, if_neg hc, if_pos hlt] at hr
    exact ih r hr
  | case5 ci c h hc hlt reason dur confirm rest2 hyes =>
    intro r hr
    simp only [get_circulating_supply_info, h, if_neg hc, if_neg hlt, if_pos hyes,
      Option.some.injEq] at hr
    subst hr
    exact ⟨show 0 < c by omega, show c ≤ total by omega, rfl, rfl, rfl⟩
  | case6 ci c h hc hlt reason dur confirm rest2 hno ih =>
    intro r hr
    simp only [get_circulating_supply_info, h, if_neg hc, if_neg hlt, if_neg hno] at hr
    exact ih r hr
  | case7 ci rest c h hc hlt hshape =>
    intro r hr
    rcases rest with _ | ⟨a, _ | ⟨b, _ | ⟨e, rest2⟩⟩⟩
    · rw [get_circulating_supply_info] at hr
      simp only [h, if_neg hc, if_neg hlt] at hr
      exact Option.noConfusion hr
    · rw [get_circulating_supply_info] at hr
      simp only [h, if_neg hc, if_neg hlt] at hr
      exact Option.noConfusion hr
    · rw [get_circulating_supply_info] at hr
      simp only [h, if_neg hc, if_neg hlt] at hr
      exact Option.noConfusion hr
    · exact (hshape a b e rest2 rfl).elim

/-- Concrete evaluation of the circulating-supply loop on the scenario
total = 1,000,000, circulating = 800,000, confirmed on the first try. -/
theorem supply_eval :
    get_circulating_supply_info 1000000 ["800000", "team", "6 months", "yes"] =
      some infoSample := by
  have h1 : pyInt? "800000" = some 800000 := by decide
  have h2 : pyStrip (pyLower "yes") = "yes" := by decide
  have h8 : '8'.toNat = 56 := rfl
  have h0 : '0'.toNat = 48 := rfl
  simp only [get_circulating_supply_info, h1, h2, infoSample]
  norm_num [SupplyInfo.mk.injEq, h8, h0]

/-- C3: for a total supply T > 0, the circulating-supply loop returns an
entered value c only when 0 < c ≤ T, and an unparsable, non-positive or
too-large entry is consumed by a re-prompt, never returned. -/
theorem claim3_supply_loop_validation (total : Int) (htotal : 0 < total) :
    (∀ inputs r, get_circulating_supply_info total inputs = some r →
        0 < r.circulating_supply ∧ r.circulating_supply ≤ total)
    ∧ (∀ s rest,
        (pyInt? s = none ∨ ∃ c, pyInt? s = some c ∧ (c ≤ 0 ∨ total < c)) →
        get_circulating_supply_info total (s :: rest) =
          get_circulating_supply_info total rest) := by
  constructor
  · intro inputs r hr
    obtain ⟨h1, h2, -, -, -⟩ := supply_sound total inputs r hr
    exact ⟨h1, h2⟩
  · rintro s rest (hnone | ⟨c, hc, hbad⟩)
    · simp only [get_circulating_supply_info, hnone]
    · rcases hbad with hle | hgt
      · simp only [get_circulating_supply_info, hc, if_pos hle]
      · by_cases hle0 : c ≤ 0
        · simp only [get_circulating_supply_info, hc, if_pos hle0]
        · simp only [get_circulating_supply_info, hc, if_neg hle0, if_pos hgt]

/-- Witness for C3: the unparsable entry "abc" is consumed by a re-prompt. -/
theorem claim3_witness :
    get_circulating_supply_info 1000000 ["abc"] = get_circulating_supply_info 1000000 [] :=
  (claim3_supply_loop_validation 1000000 (by decide)).2 "abc" [] (Or.inl (by decide))

/-- C4: for every accepted total and circulating supply, the circulating
percentage is c / T * 100 and the locked supply is T - c; on the scenario
T = 1,000,000, c = 800,000 the locked supply is 200,000 and the
one-decimal displays are 80.0 and 20.0. -/
theorem claim4_supply_percentages (total : Int) :
    (∀ inputs r, get_circulating_supply_info total inputs = some r →
        r.circulating_percent = (r.circulating_supply : ℚ) / (total : ℚ) * 100 ∧
        r.locked_supply = total - r.circulating_supply)
    ∧ (∀ r, get_circulating_supply_info 1000000 ["800000", "team", "6 months", "yes"] = some r →
        r.locked_supply = 200000 ∧
        round1 r.circulating_percent = 80 ∧ round1 r.locked_percent = 20) := by
  constructor
  · intro inputs r hr
    obtain ⟨-, -, h3, h4, -⟩ := supply_sound total inputs r hr
    exact ⟨h4, h3⟩
  · intro r hr
    rw [supply_eval, Option.some.injEq] at hr
    subst hr
    refine ⟨rfl, ?_, ?_⟩
    · show round1 80 = 80
      rw [round1]
      rw [show ((80 : ℚ) * 10 + 1 / 2) = 1601 / 2 by norm_num]
      rw [show ⌊(1601 / 2 : ℚ)⌋ = 800 from Int.floor_eq_iff.mpr (by norm_num)]
      norm_num
    · show round1 20 = 20
      rw [round1]
      rw [show ((20 : ℚ) * 10 + 1 / 2) = 401 / 2 by norm_num]
      rw [show ⌊(401 / 2 : ℚ)⌋ = 200 from Int.floor_eq_iff.mpr (by norm_num)]
      norm_num

/-- Witness for C4: the scenario record itself. -/
theorem claim4_witness :
    infoSample.locked_supply = 200000 ∧
    round1 infoSample.circulating_percent = 80 ∧ round1 infoSample.locked_percent = 20 :=
  (claim4_supply_percentages 1000000).2 infoSample supply_eval

/-- C10: every record returned by `get_circulating_supply_info` satisfies
circulating + locked = total, a percentage split summing to 100, and
0 < circulating ≤ total. -/
theorem claim10_supply_invariant (total : Int) (inputs : List String) (r : SupplyInfo)
    (hr : get_circulating_supply_info total inputs = some r) :
    r.circulating_supply + r.locked_supply = total ∧
    r.circulating_percent + r.locked_percent = 100 ∧
    0 < r.circulating_supply ∧ r.circulating_supply ≤ total := by
  obtain ⟨h1, h2, h3, h4, h5⟩ := supply_sound total inputs r hr
  refine ⟨by omega, ?_, h1, h2⟩
  rw [h5]
  ring

/-- Witness for C10: the invariant at the concrete scenario. -/
theorem claim10_witness :
    infoSample.circulating_supply + infoSample.locked_supply = 1000000 ∧
    infoSample.circulating_percent + infoSample.locked_percent = 100 ∧
    0 < infoSample.circulating_supply ∧ infoSample.circulating_supply ≤ 1000000 :=
  claim10_supply_invariant 1000000 ["800000", "team", "6 months", "yes"] infoSample supply_eval

/-- C5 counterexample: the input "0" is a digit string denoting the whole
number 0 ≥ 0, yet the total-supply validator rejects it and re-prompts
(so with no further input it never accepts), contradicting the claimed
"accepts iff the value is a whole number ≥ 0". -/
theorem claim5_counterexample :
    pyIsdigit "0" = true ∧ digitsToNat "0" = 0 ∧ get_total_supply ["0"] = none := by
  decide

/-- C5 amended: the priority-fee validator accepts iff the stripped input
parses as an integer ≥ 0; the decimals validator accepts iff the input is
a digit string of value ≤ 18; the total-supply validator accepts iff the
input is a digit string of positive value. -/
theorem claim5_amended_validators :
    (∀ s f, get_priority_fee [s] = some f ↔ (pyInt? (pyStrip s) = some f ∧ 0 ≤ f))
    ∧ (∀ s d, get_decimals [s] = some d ↔
        (pyIsdigit s = true ∧ digitsToNat s = d ∧ d ≤ 18))
    ∧ (∀ s t, get_total_supply [s] = some t ↔
        (pyIsdigit s = true ∧ digitsToNat s = t ∧ 0 < t)) := by
  refine ⟨fun s f => ?_, fun s d => ?_, fun s t => ?_⟩
  · cases h : pyInt? (pyStrip s) with
    | none => simp [get_priority_fee, h]
    | some v =>
      by_cases hv : 0 ≤ v
      · simp only [get_priority_fee, h, if_pos hv, Option.some.injEq]
        exact ⟨fun hvf => ⟨hvf, hvf ▸ hv⟩, fun hp => hp.1⟩
      · simp only [get_priority_fee, h, if_neg hv, Option.some.injEq]
        constructor
        · intro hcon
          exact Option.noConfusion hcon
        · rintro ⟨rfl, hf⟩
          exact absurd hf hv
  · by_cases hd : pyIsdigit s
    · by_cases h18 : digitsToNat s ≤ 18
      · simp only [get_decimals, if_pos hd, if_pos h18, Option.some.injEq]
        constructor
        · rintro rfl; exact ⟨hd, rfl, h18⟩
        · rintro ⟨-, rfl, -⟩; rfl
      · simp only [get_decimals, if_pos hd, if_neg h18]
        constructor
        · rintro ⟨⟩
        · rintro ⟨-, rfl, hle⟩; exact absurd hle h18
    · simp only [get_decimals, if_neg hd]
      constructor
      · rintro ⟨⟩
      · rintro ⟨hcon, -, -⟩; exact absurd hcon (by simpa using hd)
  · by_cases hd : pyIsdigit s
    · by_cases hpos : 0 < digitsToNat s
      · simp only [get_total_supply, if_pos hd, if_pos hpos, Option.some.injEq]
        constructor
        · rintro rfl; exact ⟨hd, rfl, hpos⟩
        · rintro ⟨-, rfl, -⟩; rfl
      · simp only [get_total_supply, if_pos hd, if_neg hpos]
        constructor
        · rintro ⟨⟩
        · rintro ⟨-, rfl, hlt⟩; exact absurd hlt hpos
    · simp only [get_total_supply, if_neg hd]
      constructor
      · rintro ⟨⟩
      · rintro ⟨hcon, -, -⟩; exact absurd hcon (by simpa using hd)

/-- An existence-guarded `os.remove` never raises and acts as a filter. -/
theorem guarded_remove_eq (fs : FS) (p : String) :
    (if osPathExists fs p then osRemove fs p else some fs) =
      some (fs.filter (fun q => q ≠ p)) := by
  by_cases h : p ∈ fs
  · have hb : osPathExists fs p = true := by simpa [osPathExists] using h
    rw [if_pos hb, osRemove, if_pos h]
  · have hb : ¬ osPathExists fs p = true := by simpa [osPathExists] using h
    rw [if_neg hb]
    congr 1
    exact (List.filter_eq_self.mpr fun a ha =>
      decide_eq_true (show a ≠ p from fun hap => h (hap ▸ ha))).symm

/-- `cleanup` always succeeds and amounts to filtering out the two
temporary paths. -/
theorem cleanup_eq (fs : FS) :
    cleanup fs =
      some ((fs.filter (fun q => q ≠ "metadata.json")).filter (fun q => q ≠ tempWalletPath)) := by
  simp only [cleanup, guarded_remove_eq]

/-- Two interleaved filters are idempotent. -/
theorem filter2_idem (A B : String → Bool) (l : FS) :
    ((((l.filter A).filter B).filter A).filter B) = (l.filter A).filter B := by
  induction l with
  | nil => rfl
  | cons a l ih =>
    by_cases hA : A a = true
    · by_cases hB : B a = true
      · simp [List.filter_cons, hA, hB, ih, -List.filter_filter]
      · simp [List.filter_cons, hA, hB, ih, -List.filter_filter]
    · simp [List.filter_cons, hA, ih, -List.filter_filter]

/-- C7: `cleanup` is total and idempotent: it never errors on any file
system, a second run returns the same file system unchanged, and when
neither temporary file exists it changes nothing. -/
theorem claim7_cleanup_idempotent (fs : FS) :
    (cleanup fs).isSome = true
    ∧ (∀ fs2, cleanup fs = some fs2 → cleanup fs2 = some fs2)
    ∧ (("metadata.json" ∉ fs ∧ tempWalletPath ∉ fs) → cleanup fs = some fs) := by
  refine ⟨by rw [cleanup_eq]; rfl, ?_, ?_⟩
  · intro fs2 h2
    rw [cleanup_eq, Option.some.injEq] at h2
    subst h2
    rw [cleanup_eq]
    congr 1
    exact filter2_idem _ _ fs
  · rintro ⟨hm, ht⟩
    rw [cleanup_eq]
    congr 1
    have h1 : fs.filter (fun q => q ≠ "metadata.json") = fs :=
      List.filter_eq_self.mpr fun a ha =>
        decide_eq_true (show a ≠ "metadata.json" from fun hap => hm (hap ▸ ha))
    rw [h1]
    exact List.filter_eq_self.mpr fun a ha =>
      decide_eq_true (show a ≠ tempWalletPath from fun hap => ht (hap ▸ ha))

/-- Witness for C7: a second cleanup run on the result of a first one is a
no-op. -/
theorem claim7_witness : cleanup ["keep.txt"] = some ["keep.txt"] :=
  (claim7_cleanup_idempotent ["metadata.json", "keep.txt"]).2.1 ["keep.txt"] (by decide)

/-- C1: if `create_token` fails (non-zero exit code, or exit code 0 with no
extractable identifier), `main` halts at once: no later step runs and no
file is written. -/
theorem claim1_create_failure_halts (env : String → CmdResult) (d : TokenDetails)
    (pref : String) (h : create_token env d.decimals = none) :
    runPipeline env d pref = ([Step.createToken], []) := by
  rw [runPipeline, h]

/-- Witness for C1: an environment whose create-token command exits 1. -/
theorem claim1_witness :
    runPipeline envCreateFail detailsSample "1" = ([Step.createToken], []) :=
  claim1_create_failure_halts envCreateFail detailsSample "1" (by decide)

/-- C2: when the create-token command exits 0, `create_token` returns no
identifier if no stdout line contains "Creating token", and it returns an
identifier only if such a line exists, the identifier being that line's
last whitespace-separated word. -/
theorem claim2_marker_extraction (env : String → CmdResult) (decimals : Nat)
    (h : (env (create_token_cmd decimals)).code = 0) :
    ((∀ line ∈ pyLines (env (create_token_cmd decimals)).stdout,
        pyContains line "Creating token" = false) →
      create_token env decimals = none)
    ∧ (∀ a, create_token env decimals = some a →
        ∃ line ∈ pyLines (env (create_token_cmd decimals)).stdout,
          pyContains line "Creating token" = true ∧ (pySplit line).getLast? = some a) := by
  constructor
  · intro hall
    rw [create_token]
    simp only [h]
    rw [if_neg (by simp), extract_token_address]
    rw [List.find?_eq_none.mpr (fun x hx => by simp [hall x hx])]
  · intro a ha
    rw [create_token] at ha
    simp only [h, if_neg (by simp : ¬ ((0 : Int) ≠ 0))] at ha
    rw [extract_token_address] at ha
    cases hf : (pyLines (env (create_token_cmd decimals)).stdout).find?
        (fun line => pyContains line "Creating token") with
    | none => rw [hf] at ha; exact Option.noConfusion ha
    | some line =>
      rw [hf] at ha
      exact ⟨line, List.mem_of_find?_eq_some hf,
        List.find?_some (p := fun line => pyContains line "Creating token") hf, ha⟩

/-- Witness for C2: exit code 0 with stdout "Done." yields no identifier. -/
theorem claim2_witness : create_token envOkNoMarker 9 = none :=
  (claim2_marker_extraction envOkNoMarker 9 (by decide)).1 (by decide)

/-- C6: the steps of `main` after `mint_tokens` run unconditionally: with a
created token, a successful account setup and mint, and auto-listing
requested, the failure of the issuance lockout or of the on-chain metadata
publication (exit code ≠ 0) still leaves the full remaining step list —
metadata creation, metadata publication, transfer, auto-listing, cleanup
and the final summary all execute. -/
theorem claim6_noncritical_failures_continue (env : String → CmdResult) (d : TokenDetails)
    (pref addr : String)
    (h1 : create_token env d.decimals = some addr) (h2 : addr ≠ "")
    (h3 : setup_token_account env addr = true)
    (h4 : mint_tokens env addr d.supply = true)
    (h5 : pref ≠ "3")
    (h6 : disable_future_minting env addr = false ∨
      ∃ wallet_address network, setup_metadata_on_chain_ok env addr wallet_address network d = false) :
    (runPipeline env d pref).1 =
      [Step.createToken, Step.setupTokenAccount, Step.mintTokens,
       Step.disableFutureMinting, Step.createMetadataFile, Step.setupMetadataOnChain,
       Step.sendTokens, Step.autoList, Step.cleanupStep, Step.finalSummary] := by
  have h3' : ¬ setup_token_account env addr = false := by
    rw [h3]; exact fun hcon => Bool.noConfusion hcon
  have h4' : ¬ mint_tokens env addr d.supply = false := by
    rw [h4]; exact fun hcon => Bool.noConfusion hcon
  simp only [runPipeline, h1, if_neg h2, if_neg h3', if_neg h4', if_pos h5]

/-- Witness for C6: an environment where only the mint-authority disable
command fails. -/
theorem claim6_witness :
    (runPipeline envDisableFail detailsSample "1").1 =
      [Step.createToken, Step.setupTokenAccount, Step.mintTokens,
       Step.disableFutureMinting, Step.createMetadataFile, Step.setupMetadataOnChain,
       Step.sendTokens, Step.autoList, Step.cleanupStep, Step.finalSummary] :=
  claim6_noncritical_failures_continue envDisableFail detailsSample "1" "TOKENADDRESS123"
    (by decide) (by decide) (by decide) (by decide) (by decide)
    (Or.inl (by decide))

/-- C8 counterexample: a run that produces a token address but was asked to
skip auto-listing (preference '3') completes while writing no report file
at all, so it is not the case that every token-producing run writes
exactly one report. -/
theorem claim8_counterexample :
    create_token envAllOk detailsSample.decimals = some "TOKENADDRESS123" ∧
    (runPipeline envAllOk detailsSample "3").2.count
      (report_file_name "TOKENADDRESS123") = 0 := by
  decide

/-- The report file name can never collide with the metadata file name. -/
theorem report_file_name_ne_metadata (addr : String) :
    report_file_name addr ≠ "metadata.json" := by
  intro h
  have hlen := congrArg String.length h
  rw [report_file_name, String.length_append, String.length_append] at hlen
  have h21 : ("token_listing_report_" : String).length = 21 := rfl
  have h4 : (".txt" : String).length = 4 := rfl
  have h13 : ("metadata.json" : String).length = 13 := rfl
  rw [h21, h4, h13] at hlen
  omega

/-- C8 amended: a run that produces a token address and reaches auto-listing
(account setup and mint succeeded, listing preference not '3') writes
exactly one report file, named `token_listing_report_` plus the first 8
characters of the token address plus `.txt`; a run with preference '3', or
one that fails before auto-listing, writes no report. -/
theorem claim8_amended_one_report (env : String → CmdResult) (d : TokenDetails)
    (pref addr : String)
    (h1 : create_token env d.decimals = some addr) (h2 : addr ≠ "")
    (h3 : setup_token_account env addr = true)
    (h4 : mint_tokens env addr d.supply = true) :
    (pref ≠ "3" →
      (runPipeline env d pref).2.count (report_file_name addr) = 1)
    ∧ (pref = "3" →
      (runPipeline env d pref).2.count (report_file_name addr) = 0) := by
  have hrw : ∀ p : String, runPipeline env d p =
      (if p ≠ "3" then
        ([Step.createToken, Step.setupTokenAccount, Step.mintTokens,
          Step.disableFutureMinting, Step.createMetadataFile, Step.setupMetadataOnChain,
          Step.sendTokens, Step.autoList, Step.cleanupStep, Step.finalSummary],
         ["metadata.json", report_file_name addr])
      else
        ([Step.createToken, Step.setupTokenAccount, Step.mintTokens,
          Step.disableFutureMinting, Step.createMetadataFile, Step.setupMetadataOnChain,
          Step.sendTokens, Step.cleanupStep, Step.finalSummary],
         ["metadata.json"])) := by
    intro p
    have h3' : ¬ setup_token_account env addr = false := by
      rw [h3]; exact fun hcon => Bool.noConfusion hcon
    have h4' : ¬ mint_tokens env addr d.supply = false := by
      rw [h4]; exact fun hcon => Bool.noConfusion hcon
    simp only [runPipeline, h1, if_neg h2, if_neg h3', if_neg h4']
  have hne : ("metadata.json" == report_file_name addr) = false :=
    beq_eq_false_iff_ne.mpr fun hcon => report_file_name_ne_metadata addr hcon.symm
  constructor
  · intro hp
    rw [hrw pref, if_pos hp]
    simp [List.count_cons, hne]
  · intro hp
    rw [hrw pref, if_neg (by simpa using hp)]
    simp [List.count_cons, hne]

/-- Witness for C8 (amended): the all-success environment with auto-listing
requested writes the one report named from the token address. -/
theorem claim8_witness :
    (runPipeline envAllOk detailsSample "1").2.count
      (report_file_name "TOKENADDRESS123") = 1 :=
  (claim8_amended_one_report envAllOk detailsSample "1" "TOKENADDRESS123"
    (by decide) (by decide) (by decide) (by decide)).1 (by decide)

/-- C9: `setup_metadata_on_chain` reads the module-level `details` variable,
which is not among its parameters: for any fixed explicit arguments
(token address, wallet address, network, wallet type, wallet path) and any
environment, two values of the global `details` yield different command
sequences, so the function's behaviour is not determined by its parameters
alone. -/
theorem claim9_global_details_dependence (fs : FS) (env : String → CmdResult)
    (token_address wallet_address network wallet_type : String)
    (wallet_path : Option String) :
    ∃ d1 d2 : TokenDetails, d1 ≠ d2 ∧
      setup_metadata_on_chain_cmds fs env token_address wallet_address network
        wallet_type wallet_path d1 ≠
      setup_metadata_on_chain_cmds fs env token_address wallet_address network
        wallet_type wallet_path d2 := by
  refine ⟨{ detailsSample with name := "A" }, { detailsSample with name := "AB" }, ?_, ?_⟩
  · intro h
    exact absurd (congrArg TokenDetails.name h) (by decide)
  · intro h
    simp only [setup_metadata_on_chain_cmds] at h
    have h2 := List.append_cancel_left h
    simp only [List.cons.injEq, and_true] at h2
    have hm := h2.2
    have hlen := congrArg String.length hm
    simp only [create_metadata_accounts_cmd, String.length_append] at hlen
    have hA : ("A" : String).length = 1 := rfl
    have hAB : ("AB" : String).length = 2 := rfl
    rw [hA, hAB] at hlen
    omega
